import Mathlib

/-!
Verification of the task_tracker backend (a FastAPI/SQLAlchemy task-tracking
service) against its natural-language specification.

The development shallowly embeds the domain logic of the repository:
  - `tracker_app/models.py`          : the enums and record types
  - `tracker_app/tasks/TaskDao.py`   : the data-access layer (status sequence,
                                       assignment policy, CRUD, history)
  - `tracker_app/tasks/router.py`    : the request handlers that orchestrate
                                       the validations
  - `tracker_app/tasks/utils.py`     : the sort-key mapping

The database is modelled as explicit state (`DB`): lists of task and
task-history rows plus id counters.  SQL timestamps (`func.now()`) are passed
in as a `now : Nat` parameter.  A Python exception escaping a handler, and an
HTTPException raised by one, are both modelled by `Except Err`.
-/

namespace TaskTracker

/-- UserRole enum from models.py. -/
inductive UserRole where
  | manager
  | team_lead
  | developer
  | test_engineer
deriving DecidableEq, Repr, Fintype

/-- TaskPriority enum from models.py. -/
inductive TaskPriority where
  | critical
  | high
  | medium
  | low
deriving DecidableEq, Repr, Fintype

/-- TaskStatus enum from models.py; declaration order is the workflow order. -/
inductive TaskStatus where
  | to_do
  | in_progress
  | code_review
  | dev_test
  | testing
  | done
  | wontfix
deriving DecidableEq, Repr, Fintype

/-- TaskType enum from models.py. -/
inductive TaskType where
  | task
  | bug
deriving DecidableEq, Repr, Fintype

/-- TaskChangeType enum from models.py. -/
inductive TaskChangeType where
  | create
  | update
deriving DecidableEq, Repr, Fintype

/-- The `.value` string of a TaskStatus member (in models.py every member's
value string coincides with its name). -/
def TaskStatus.value : TaskStatus → String
  | .to_do => "to_do"
  | .in_progress => "in_progress"
  | .code_review => "code_review"
  | .dev_test => "dev_test"
  | .testing => "testing"
  | .done => "done"
  | .wontfix => "wontfix"

/-- Lookup of a TaskStatus member by name, as Python `TaskStatus[name]`
(raising `KeyError`, i.e. `none`, when the name is unknown). -/
def TaskStatus.fromName : String → Option TaskStatus
  | "to_do" => some .to_do
  | "in_progress" => some .in_progress
  | "code_review" => some .code_review
  | "dev_test" => some .dev_test
  | "testing" => some .testing
  | "done" => some .done
  | "wontfix" => some .wontfix
  | _ => none

/-- Python `[r.value for r in TaskStatus]`: the value strings in declaration
order, as built in TaskDao.is_valid_status and TaskDao.get_next_status. -/
def statusValues : List String :=
  ["to_do", "in_progress", "code_review", "dev_test", "testing", "done", "wontfix"]

/-- Row of the tasks table (class Task in models.py).  Timestamps are Nat;
`priority` is kept optional because the create schema allows omitting it
(the column default is not modelled). -/
structure Task where
  id : Nat
  number : Int
  type : TaskType
  priority : Option TaskPriority
  status : TaskStatus
  title : String
  description : Option String
  created_at : Nat
  last_updated_at : Nat
  assignee_id : Option Int
  creator_id : Nat
  parent_id : Option Nat
deriving DecidableEq, Repr

/-- Row of the task_history table (class TaskHistory in models.py).  The JSON
`change_data` payload is modelled as an association list of string fields. -/
structure TaskHistory where
  id : Nat
  task_id : Nat
  change_type : TaskChangeType
  change_data : List (String × String)
  timestamp : Nat
  user_id : Nat
deriving DecidableEq, Repr

/-- Row of the users table (class User in models.py); password omitted, it
plays no part in the claims. -/
structure UserRec where
  id : Int
  username : String
  role : UserRole
deriving DecidableEq, Repr

/-- The persistent state reached through the session: the two task-related
tables plus the id sequences backing their primary keys. -/
structure DB where
  tasks : List Task
  history : List TaskHistory
  nextTaskId : Nat
  nextHistoryId : Nat
deriving DecidableEq, Repr

/-- Errors escaping a handler: HTTPExceptions raised by the code, and Python
runtime exceptions an operation lets propagate. -/
inductive Err where
  | badRequest
  | notFound
  | forbidden
  | typeError
  | indexError
  | attributeError
deriving DecidableEq, Repr

/-- The `.value` string of a TaskType member. -/
def TaskType.value : TaskType → String
  | .task => "task"
  | .bug => "bug"

/-- The `.value` string of a TaskPriority member. -/
def TaskPriority.value : TaskPriority → String
  | .critical => "critical"
  | .high => "high"
  | .medium => "medium"
  | .low => "low"

/-- Request body of POST /tasks/create_task (class STaskCreate in schemas.py).
It has no status field: pydantic discards any status supplied in the input. -/
structure STaskCreate where
  number : Int
  type : TaskType
  priority : Option TaskPriority
  title : String
  description : Option String
  assignee_id : Option Int
deriving DecidableEq, Repr

/-- Request body of POST /tasks/create_child_task (class STaskCreateChild). -/
structure STaskCreateChild extends STaskCreate where
  parent_id : Nat
deriving DecidableEq, Repr

/-- Request body of PUT /tasks/update_task (class STaskUpdate).  Its `status`
is a Literal over the seven status names, modelled directly as TaskStatus;
`assignee_id` and `description` are required here, unlike in STaskCreate. -/
structure STaskUpdate where
  number : Int
  type : TaskType
  status : TaskStatus
  priority : Option TaskPriority
  title : String
  description : String
  assignee_id : Int
deriving DecidableEq, Repr

/-- Python `task.dict()` for an STaskCreate, as passed to save_history. -/
def STaskCreate.dict (t : STaskCreate) : List (String × String) :=
  [("number", toString t.number),
   ("type", t.type.value),
   ("priority", match t.priority with | none => "None" | some p => p.value),
   ("title", t.title),
   ("description", t.description.getD "None"),
   ("assignee_id", match t.assignee_id with | none => "None" | some i => toString i)]

/-- Python `task.dict()` for an STaskCreateChild. -/
def STaskCreateChild.dict (t : STaskCreateChild) : List (String × String) :=
  t.toSTaskCreate.dict ++ [("parent_id", toString t.parent_id)]

/-- Python `task.dict()` for an STaskUpdate. -/
def STaskUpdate.dict (t : STaskUpdate) : List (String × String) :=
  [("number", toString t.number),
   ("type", t.type.value),
   ("status", t.status.value),
   ("priority", match t.priority with | none => "None" | some p => p.value),
   ("title", t.title),
   ("description", t.description),
   ("assignee_id", toString t.assignee_id)]

/-- Python dict assignment `data[k] = v` on an association list. -/
def setField (data : List (String × String)) (k v : String) : List (String × String) :=
  if data.any (fun p => p.1 = k) then
    data.map (fun p => if p.1 = k then (k, v) else p)
  else
    data ++ [(k, v)]

/-- Python `data.pop(k)` (the removal it performs on the dict). -/
def removeKey (data : List (String × String)) (k : String) : List (String × String) :=
  data.filter (fun p => p.1 ≠ k)

/-!  The data-access layer: tracker_app/tasks/TaskDao.py.  -/

/-- TaskDao.get_by_id / BaseDao pattern: `select(Task).filter_by(id=t_id)` with
`scalar_one_or_none` — the task with the given primary key, if any. -/
def get_by_id (db : DB) (t_id : Nat) : Option Task :=
  db.tasks.find? (fun t => t.id = t_id)

/-- TaskDao.is_valid_parent: true exactly when get_by_id finds the parent. -/
def is_valid_parent (db : DB) (parent_id : Nat) : Bool :=
  match get_by_id db parent_id with
  | none => false
  | some _ => true

/-- UserDao.get_by_id via BaseDao: `filter_by(id=o_id)`; called with None
(`filter_by(id=None)`) it matches no row. -/
def user_get_by_id (users : List UserRec) (uid : Option Int) : Option UserRec :=
  match uid with
  | none => none
  | some i => users.find? (fun u => u.id = i)

/-- The first test of TaskDao.is_valid_status is `if status in ['to_do',
'wontfix']`, where `status` resolves to the fastapi.status module imported at
the top of TaskDao.py, not to any task status; a module is not a member of a
list of strings, so the test is False on every call. -/
def fastapiStatusModuleInStatusList : Bool := false

/-- TaskDao.is_valid_status (lines 56-77).  Its declared signature takes a
single task object and the body reads only that object's status field, so it
is embedded as a function of that status string: after the dead module test,
a loop over the first `len-1` status values records the first index matching
the field (0 when none matches), and the result is `status_index < len - 2`. -/
def is_valid_status (task_status : String) : Bool :=
  if fastapiStatusModuleInStatusList then true
  else
    let statuses := statusValues
    let status_index := ((statuses.take (statuses.length - 1)).findIdx?
      (fun v => v = task_status)).getD 0
    decide (status_index < statuses.length - 2)

/-- TaskDao.is_valid_assignee (lines 79-104), branch for branch; the
assignee's role is all the body consults, so the assignee is passed as an
optional role.  The final `elif assignee is None and TaskStatus.in_progress`
guard of the source is truthy whenever the assignee is None, so that branch
returns False like the fall-through return. -/
def is_valid_assignee (task_status : TaskStatus) (assignee : Option UserRole) : Bool :=
  if assignee = none ∧ task_status ≠ TaskStatus.in_progress then true
  else
    match assignee with
    | some role =>
      if role = UserRole.team_lead then true
      else if role = UserRole.test_engineer ∧
          task_status ∉ [TaskStatus.in_progress, TaskStatus.code_review, TaskStatus.dev_test] then true
      else if role = UserRole.developer ∧ task_status ≠ TaskStatus.testing then true
      else false
    | none => false

/-- Comparator of the `order_by(Task.last_updated_at.desc())` clause: row a
may precede row b exactly when b's timestamp is at most a's. -/
def byLastUpdatedDesc (a b : Task) : Bool :=
  b.last_updated_at ≤ a.last_updated_at

/-- TaskDao.get_last_updated_task: `select(Task).order_by(last_updated_at
desc)` with `.first()` — the head of the rows sorted by descending
last_updated_at (merge sort is stable, matching a deterministic engine that
keeps insertion order among ties). -/
def get_last_updated_task (db : DB) : Option Task :=
  (db.tasks.mergeSort byLastUpdatedDesc).head?

/-- TaskDao.save_history (lines 15-38): looks up the most recently updated
task, forces the recorded status to to_do for create actions, and appends one
TaskHistory row attributed to that task.  With no task in the table the
lookup yields None and `task_created.id` raises AttributeError. -/
def save_history (db : DB) (data : List (String × String)) (cur_user_id : Nat)
    (action : TaskChangeType) (now : Nat) : Except Err DB :=
  match get_last_updated_task db with
  | none => .error .attributeError
  | some task_created =>
    let data := if action = TaskChangeType.create then setField data "status" "to_do" else data
    let row : TaskHistory :=
      { id := db.nextHistoryId, task_id := task_created.id, change_type := action,
        change_data := data, timestamp := now, user_id := cur_user_id }
    .ok { db with history := db.history ++ [row], nextHistoryId := db.nextHistoryId + 1 }

/-- TaskDao.create_task (lines 119-141): inserts a row whose status is the
constant TaskStatus.to_do and whose assignee_id is NULL when the request's
assignee_id is 0 (`task.assignee_id if task.assignee_id != 0 else None`;
a None assignee_id also satisfies `!= 0` and stays None). -/
def create_task (db : DB) (task : STaskCreate) (cur_user_id : Nat) (now : Nat) : DB :=
  let newRow : Task :=
    { id := db.nextTaskId, number := task.number, type := task.type,
      priority := task.priority, status := TaskStatus.to_do,
      title := task.title, description := task.description,
      created_at := now, last_updated_at := now,
      assignee_id := if task.assignee_id ≠ some 0 then task.assignee_id else none,
      creator_id := cur_user_id, parent_id := none }
  { db with tasks := db.tasks ++ [newRow], nextTaskId := db.nextTaskId + 1 }

/-- TaskDao.create_child_task (lines 143-166): as create_task plus the
parent_id link. -/
def create_child_task (db : DB) (task : STaskCreateChild) (cur_user_id : Nat) (now : Nat) : DB :=
  let newRow : Task :=
    { id := db.nextTaskId, number := task.number, type := task.type,
      priority := task.priority, status := TaskStatus.to_do,
      title := task.title, description := task.description,
      created_at := now, last_updated_at := now,
      assignee_id := if task.assignee_id ≠ some 0 then task.assignee_id else none,
      creator_id := cur_user_id, parent_id := some task.parent_id }
  { db with tasks := db.tasks ++ [newRow], nextTaskId := db.nextTaskId + 1 }

/-- TaskDao.update_task (lines 203-228): overwrites the mutable fields of the
row with the given id; assignee_id becomes NULL when the request's
assignee_id is 0; last_updated_at is bumped by the column's onupdate clock. -/
def update_task (db : DB) (task : STaskUpdate) (id : Nat) (now : Nat) : DB :=
  { db with tasks := db.tasks.map (fun t =>
      if t.id = id then
        { t with
          number := task.number
          type := task.type
          priority := task.priority
          status := task.status
          title := task.title
          description := some task.description
          assignee_id := if task.assignee_id = 0 then none else some task.assignee_id
          last_updated_at := now }
      else t) }

/-- TaskDao.delete_task (lines 230-244): `delete(Task).where(Task.id == id)`;
it touches no other table. -/
def delete_task (db : DB) (id : Nat) : DB :=
  { db with tasks := db.tasks.filter (fun t => t.id ≠ id) }

/-- Body of TaskDao.get_next_status (lines 246-265) as a function of the one
field it reads, the task's status: a loop over the status value list records
the index of the value equal to `status.value` (the last match; 0 when none
matches), then reads the element at the next index -- an IndexError past the
end, modelled as none -- and converts the value string back to a member via
the name lookup `TaskStatus[next_status]`. -/
def next_status_of (status : TaskStatus) : Option TaskStatus :=
  let statuses := statusValues
  let status_index := statuses.enum.foldl
    (fun acc p => if p.2 = status.value then p.1 else acc) 0
  match statuses.get? (status_index + 1) with
  | none => none
  | some next_status => TaskStatus.fromName next_status

/-- TaskDao.get_next_status, applied to a task row. -/
def get_next_status (task : Task) : Option TaskStatus :=
  next_status_of task.status

/-- TaskDao.update_status (lines 267-284): sets status and assignee of the
row with the given id; assignee_id 0 is stored as NULL. -/
def update_status (db : DB) (id : Nat) (t_status : TaskStatus) (assignee_id : Int)
    (now : Nat) : DB :=
  { db with tasks := db.tasks.map (fun t =>
      if t.id = id then
        { t with
          status := t_status
          assignee_id := if assignee_id ≠ 0 then some assignee_id else none
          last_updated_at := now }
      else t) }

/-- TaskDao.get_task_history (lines 340-355): the task_history rows with the
given task_id, ordered by timestamp ascending. -/
def get_task_history (db : DB) (id : Nat) : List TaskHistory :=
  (db.history.filter (fun h => h.task_id = id)).mergeSort
    (fun a b => a.timestamp ≤ b.timestamp)

/-!  The sort-key mapping: tracker_app/tasks/utils.py.  -/

/-- Direction of an order_by expression. -/
inductive SortDir where
  | asc
  | desc
deriving DecidableEq, Repr

/-- An order_by expression `asc(column(f))` / `desc(column(f))`. -/
structure SortExpr where
  field : String
  dir : SortDir
deriving DecidableEq, Repr

/-- The filter_mapping dict of utils.convert_filter_type (lines 20-33). -/
def filter_mapping : List (String × SortExpr) :=
  [("number_asc", ⟨"number", .asc⟩),
   ("number_desc", ⟨"number", .desc⟩),
   ("status_asc", ⟨"status", .asc⟩),
   ("status_desc", ⟨"status", .desc⟩),
   ("type_asc", ⟨"type", .asc⟩),
   ("type_desc", ⟨"type", .desc⟩),
   ("created_at_asc", ⟨"created_at", .asc⟩),
   ("created_at_desc", ⟨"created_at", .desc⟩),
   ("last_updated_at_asc", ⟨"last_updated_at", .asc⟩),
   ("last_updated_at_desc", ⟨"last_updated_at", .desc⟩),
   ("assignee_asc", ⟨"assignee_id", .asc⟩),
   ("assignee_desc", ⟨"assignee_id", .desc⟩)]

/-- utils.convert_filter_type (lines 7-36): `filter_mapping.get(filter_type)`.
Despite its docstring, it raises nothing: an unrecognized key -- or the
route's default None -- simply yields None. -/
def convert_filter_type (filter_type : Option String) : Option SortExpr :=
  match filter_type with
  | none => none
  | some s => filter_mapping.lookup s

/-- TaskDao.get_all_tasks (lines 169-185).  The route hands it the already
converted order_by expression, yet its body calls convert_filter_type again;
an expression object is not a key of filter_mapping, so the second lookup
yields None and `order_by(None)` resets the ordering: the rows come back in
table order, whatever expression was passed in. -/
def get_all_tasks (db : DB) (_filter_type : SortExpr) : List Task :=
  db.tasks

/-!  The request handlers: tracker_app/tasks/router.py.  -/

/-- Handler for POST /tasks/create_task (router.py lines 20-40): validates
the assignee against status to_do, inserts, then records history. -/
def create_task_route (db : DB) (users : List UserRec) (task : STaskCreate)
    (cur_user_id : Nat) (now : Nat) : Except Err DB :=
  let assignee := user_get_by_id users task.assignee_id
  if !(is_valid_assignee TaskStatus.to_do (assignee.map (fun u => u.role))) then
    .error .badRequest
  else
    let db1 := create_task db task cur_user_id now
    save_history db1 task.dict cur_user_id TaskChangeType.create now

/-- Handler for POST /tasks/create_child_task (router.py lines 43-66):
validates assignee and parent; on either failure raises HTTP 400 Bad
Request; otherwise inserts the child (linked to the parent) and records
history with parent_id popped from the payload. -/
def create_child_task_route (db : DB) (users : List UserRec) (task : STaskCreateChild)
    (cur_user_id : Nat) (now : Nat) : Except Err DB :=
  let assignee := user_get_by_id users task.assignee_id
  let valid_assignee := is_valid_assignee TaskStatus.to_do (assignee.map (fun u => u.role))
  let valid_parent := is_valid_parent db task.parent_id
  if !valid_assignee || !valid_parent then .error .badRequest
  else
    let data := removeKey task.dict "parent_id"
    let db1 := create_child_task db task cur_user_id now
    save_history db1 data cur_user_id TaskChangeType.create now

/-- Handler for GET /tasks/get_task (router.py lines 69-83). -/
def get_task_route (db : DB) (t_id : Nat) : Except Err Task :=
  match get_by_id db t_id with
  | none => .error .notFound
  | some t => .ok t

/-- Handler for GET /tasks/get_tasks (router.py lines 86-101): converts the
sort key, substituting ascending id when the conversion yields None (be it
from an unrecognized key or from the default None parameter), and returns
the listing; no path raises. -/
def get_tasks_route (db : DB) (filter_type : Option String) : Except Err (List Task) :=
  let filter_method := convert_filter_type filter_type
  let filter_method :=
    match filter_method with
    | none => SortExpr.mk "id" SortDir.asc
    | some m => m
  .ok (get_all_tasks db filter_method)

/-- The number of parameters TaskDao.is_valid_status declares: one, the task
object (TaskDao.py line 57). -/
def is_valid_status_paramCount : Nat := 1

/-- The number of arguments router.update_task passes to
TaskDao.is_valid_status at line 126: the current task, the requested status
member and the computed next status. -/
def update_task_callArgCount : Nat := 3

/-- Handler for PUT /tasks/update_task (router.py lines 104-134), step by
step: a missing task makes line 122 dereference None (AttributeError); a
current status of wontfix makes get_next_status overrun the list
(IndexError); the Literal-typed status of the body always passes the line
123 membership test; then line 126 calls the one-parameter
TaskDao.is_valid_status with three arguments, a TypeError.  The remaining
lines are kept to mirror the source but are unreachable. -/
def update_task_route (db : DB) (users : List UserRec) (task : STaskUpdate)
    (t_id : Nat) (cur_user_id : Nat) (now : Nat) : Except Err DB :=
  match get_by_id db t_id with
  | none => .error .attributeError
  | some cur_task =>
    match get_next_status cur_task with
    | none => .error .indexError
    | some _t_next_status =>
      if update_task_callArgCount ≠ is_valid_status_paramCount then .error .typeError
      else
        let valid_status := is_valid_status cur_task.status.value
        let assignee := user_get_by_id users (some task.assignee_id)
        let valid_assignee := is_valid_assignee task.status (assignee.map (fun u => u.role))
        if !valid_status || !valid_assignee then .error .badRequest
        else
          let db1 := update_task db task t_id now
          save_history db1 task.dict cur_user_id TaskChangeType.update now

/-- Handler for DELETE /tasks/delete_task (router.py lines 137-156):
manager-only, then an unconditional hard delete of the task row. -/
def delete_task_route (db : DB) (cur_user : UserRec) (t_id : Nat) : Except Err DB :=
  if cur_user.role ≠ UserRole.manager then .error .forbidden
  else .ok (delete_task db t_id)

/-- Handler for PATCH /tasks/next_status (router.py lines 159-185): computes
the next status (missing task: AttributeError; current wontfix: IndexError),
rejects a computed wontfix with HTTP 400, validates the assignee against the
computed status, and applies update_status. -/
def next_status_route (db : DB) (users : List UserRec) (t_id : Nat)
    (assignee_id : Int) (now : Nat) : Except Err DB :=
  match get_by_id db t_id with
  | none => .error .attributeError
  | some task =>
    match get_next_status task with
    | none => .error .indexError
    | some t_next_status =>
      if t_next_status = TaskStatus.wontfix then .error .badRequest
      else
        let assignee := user_get_by_id users (some assignee_id)
        if !(is_valid_assignee t_next_status (assignee.map (fun u => u.role))) then
          .error .badRequest
        else
          .ok (update_status db t_id t_next_status assignee_id now)

/-- Handler for GET /tasks/task_history (router.py lines 205-216). -/
def task_history_route (db : DB) (t_id : Nat) : List TaskHistory :=
  get_task_history db t_id

/-!  Spec-side definitions, written from the specification's words, for
comparison with the embedded code (sections 4.1 and 8 of spec.md).  -/

/-- The specification's `next`: the status immediately following in the
order to_do → in_progress → code_review → dev_test → testing → done;
undefined (none) at the terminal done and at wontfix. -/
def spec_next : TaskStatus → Option TaskStatus
  | .to_do => some .in_progress
  | .in_progress => some .code_review
  | .code_review => some .dev_test
  | .dev_test => some .testing
  | .testing => some .done
  | .done => none
  | .wontfix => none

/-- The specification's `is_valid_transition(current, requested)`: requested
must be to_do, wontfix, current itself, or next(current). -/
def is_valid_transition_spec (current requested : TaskStatus) : Bool :=
  decide (requested = TaskStatus.to_do) || decide (requested = TaskStatus.wontfix) ||
  decide (requested = current) || decide (spec_next current = some requested)

/-- The successor function the code actually computes (the amended form of
the spec's `next`): the forward successor everywhere it exists, taking
done to wontfix, and failing only past the end of the list at wontfix. -/
def amended_next_spec : TaskStatus → Option TaskStatus
  | .to_do => some .in_progress
  | .in_progress => some .code_review
  | .code_review => some .dev_test
  | .dev_test => some .testing
  | .testing => some .done
  | .done => some .wontfix
  | .wontfix => none

/-!  Concrete fixtures used by witnesses and counterexamples.  -/

/-- A task row sitting at status done. -/
def doneTask : Task :=
  { id := 3, number := 3, type := .task, priority := none, status := .done,
    title := "t", description := none, created_at := 0, last_updated_at := 0,
    assignee_id := none, creator_id := 1, parent_id := none }

/-- A freshly created task row (status to_do), id 1. -/
def seedTask : Task :=
  { id := 1, number := 7, type := .task, priority := some .low, status := .to_do,
    title := "a", description := some "d", created_at := 0, last_updated_at := 0,
    assignee_id := none, creator_id := 1, parent_id := none }

/-- A one-task database holding seedTask. -/
def seedDB : DB :=
  { tasks := [seedTask], history := [], nextTaskId := 2, nextHistoryId := 1 }

/-- A two-task database with distinct last_updated_at stamps. -/
def twoTaskDB : DB :=
  { tasks := [seedTask, { seedTask with id := 2, number := 8, last_updated_at := 9 }],
    history := [], nextTaskId := 3, nextHistoryId := 1 }

/-- An update request echoing seedTask's own field values. -/
def echoUpdateReq : STaskUpdate :=
  { number := 7, type := .task, status := .to_do, priority := some .low,
    title := "a", description := "d", assignee_id := 0 }

/-- A child-create request whose parent_id resolves to no task of seedDB. -/
def childReqBadParent : STaskCreateChild :=
  { number := 8, type := .task, priority := none, title := "b",
    description := none, assignee_id := none, parent_id := 99 }

/-- A child-create request whose parent_id resolves to seedTask. -/
def childReqOkParent : STaskCreateChild :=
  { number := 9, type := .bug, priority := none, title := "c",
    description := none, assignee_id := none, parent_id := 1 }

/-- A create request carrying assignee_id 0. -/
def createReqZero : STaskCreate :=
  { number := 10, type := .task, priority := none, title := "z",
    description := none, assignee_id := some 0 }

/-- A child-create request carrying assignee_id 0. -/
def childReqZero : STaskCreateChild :=
  { number := 11, type := .task, priority := none, title := "z",
    description := none, assignee_id := some 0, parent_id := 1 }

/-- An update request carrying assignee_id 0. -/
def updateReqZero : STaskUpdate :=
  { number := 7, type := .task, status := .in_progress, priority := some .low,
    title := "a", description := "d", assignee_id := 0 }

/-- The database save_history produces from seedDB for an update action at
time 5 by user 1 with an empty payload. -/
def seedDBAfterHistory : DB :=
  { tasks := [seedTask],
    history := [{ id := 1, task_id := 1, change_type := .update, change_data := [],
                  timestamp := 5, user_id := 1 }],
    nextTaskId := 2, nextHistoryId := 2 }

/-!  Helper lemmas.  -/

/-- The descending-timestamp comparator is transitive. -/
lemma byLastUpdatedDesc_trans : ∀ a b c : Task,
    byLastUpdatedDesc a b = true → byLastUpdatedDesc b c = true →
    byLastUpdatedDesc a c = true := by
  intro a b c h1 h2
  simp only [byLastUpdatedDesc, decide_eq_true_eq] at h1 h2 ⊢
  omega

/-- The descending-timestamp comparator is total. -/
lemma byLastUpdatedDesc_total : ∀ a b : Task,
    (byLastUpdatedDesc a b || byLastUpdatedDesc b a) = true := by
  intro a b
  simp only [byLastUpdatedDesc, Bool.or_eq_true, decide_eq_true_eq]
  omega

/-- On a nonempty tasks table, get_last_updated_task returns a task of the
table whose last_updated_at dominates every row's. -/
lemma get_last_updated_task_max (db : DB) (hne : db.tasks ≠ []) :
    ∃ c, get_last_updated_task db = some c ∧ c ∈ db.tasks ∧
      ∀ t ∈ db.tasks, t.last_updated_at ≤ c.last_updated_at := by
  have hperm := List.mergeSort_perm db.tasks byLastUpdatedDesc
  have hs := @List.sorted_mergeSort Task byLastUpdatedDesc
    byLastUpdatedDesc_trans byLastUpdatedDesc_total db.tasks
  unfold get_last_updated_task
  cases hm : db.tasks.mergeSort byLastUpdatedDesc with
  | nil =>
    rw [hm] at hperm
    exact absurd hperm.symm.eq_nil hne
  | cons c rest =>
    rw [hm] at hperm hs
    refine ⟨c, rfl, hperm.subset (List.mem_cons_self c rest), ?_⟩
    intro t ht
    have htm : t ∈ c :: rest := hperm.symm.subset ht
    rcases List.mem_cons.mp htm with h | h
    · rw [h]
    · have hb := (List.pairwise_cons.mp hs).1 t h
      simp only [byLastUpdatedDesc, decide_eq_true_eq] at hb
      exact hb

/-- The code's next-status computation agrees with the amended successor
table on every status. -/
lemma next_status_of_table : ∀ s : TaskStatus,
    next_status_of s = amended_next_spec s := by
  decide

/-- Every status except wontfix has a computed next status. -/
lemma next_status_of_some (s : TaskStatus) (h : s ≠ TaskStatus.wontfix) :
    ∃ n, next_status_of s = some n := by
  cases s <;> first | exact absurd rfl h | exact ⟨_, rfl⟩

/-- An association-list lookup succeeds exactly on the keys of the list. -/
lemma lookup_isSome_iff {β : Type} (s : String) : ∀ (l : List (String × β)),
    ((l.lookup s).isSome = true) ↔ s ∈ l.map Prod.fst := by
  intro l
  induction l with
  | nil => simp [List.lookup]
  | cons p tl ih =>
    obtain ⟨k, v⟩ := p
    cases h : (s == k) with
    | true =>
      have hk : s = k := by simpa using h
      simp [List.lookup, h, hk]
    | false =>
      have hne : ¬ s = k := by simpa using h
      simp [List.lookup, h, ih, hne]

/-!  The claims.  -/

/-- Claim C1 (code bug).  The claim says the status-transition validity
check accepts current c, requested r iff r is to_do, wontfix, c, or next(c).
The check the code runs, TaskDao.is_valid_status, consults no requested
status at all: it accepts every current status except done (its to_do and
wontfix bypass test compares the fastapi.status module, never a status), so
it answers true at current to_do even though the specification rejects the
requested jump to testing; moreover its only caller hands the one-parameter
function three arguments. -/
theorem claim_C1_status_check_ignores_requested :
    (∀ s : TaskStatus, (is_valid_status s.value = true) ↔ s ≠ TaskStatus.done) ∧
    is_valid_transition_spec TaskStatus.to_do TaskStatus.testing = false ∧
    update_task_callArgCount ≠ is_valid_status_paramCount := by
  decide

/-- Claim C2, counterexample.  The claim says next(done) must fail with an
InvalidState error; the code instead returns wontfix for a task at done. -/
theorem claim_C2_counterexample :
    get_next_status doneTask = some TaskStatus.wontfix ∧
    get_next_status doneTask ≠ none := by
  decide

/-- Claim C2 as amended: for every task, get_next_status yields the unique
successor in the fixed order for statuses before done, yields wontfix at
done (rather than failing), and fails (IndexError, modelled none) only at
wontfix — the table amended_next_spec. -/
theorem claim_C2_next_status_amended :
    ∀ t : Task, get_next_status t = amended_next_spec t.status := by
  intro t
  show next_status_of t.status = amended_next_spec t.status
  exact next_status_of_table t.status

/-- Claim C3 (confirmed).  is_valid_assignee returns true exactly when: the
assignee is null and the status is not in_progress; or the role is
team_lead; or the role is test_engineer and the status is none of
in_progress, code_review, dev_test; or the role is developer and the status
is not testing.  Every other combination (manager included, and null with
in_progress) is rejected. -/
theorem claim_C3_assignment_policy : ∀ (s : TaskStatus) (a : Option UserRole),
    is_valid_assignee s a = true ↔
      ((a = none ∧ s ≠ TaskStatus.in_progress) ∨
       a = some UserRole.team_lead ∨
       (a = some UserRole.test_engineer ∧
         ¬(s = TaskStatus.in_progress ∨ s = TaskStatus.code_review ∨
           s = TaskStatus.dev_test)) ∨
       (a = some UserRole.developer ∧ s ≠ TaskStatus.testing)) := by
  decide

/-- Claim C4 (confirmed).  Every create persists a task whose status is
to_do: the insert writes the constant TaskStatus.to_do, and the create
schema carries no status field at all, so no status in the input can reach
the row. -/
theorem claim_C4_create_status_to_do : ∀ (db : DB) (task : STaskCreate) (uid now : Nat),
    ∃ t, (create_task db task uid now).tasks = db.tasks ++ [t] ∧
      t.status = TaskStatus.to_do := by
  intro db task uid now
  exact ⟨_, rfl, rfl⟩

/-- Claim C5 (confirmed).  On any state with at least one task, save_history
appends exactly one history row whose task_id is the id of the task
get_last_updated_task returns — a member of the table whose last_updated_at
is greatest across all tasks — not an explicitly supplied task id (the
recorder takes none). -/
theorem claim_C5_history_attribution : ∀ (db : DB) (data : List (String × String))
    (uid : Nat) (action : TaskChangeType) (now : Nat), db.tasks ≠ [] →
    ∃ c, get_last_updated_task db = some c ∧ c ∈ db.tasks ∧
      (∀ t ∈ db.tasks, t.last_updated_at ≤ c.last_updated_at) ∧
      save_history db data uid action now = Except.ok
        { db with
          history := db.history ++
            [{ id := db.nextHistoryId, task_id := c.id, change_type := action,
               change_data := if action = TaskChangeType.create
                 then setField data "status" "to_do" else data,
               timestamp := now, user_id := uid }]
          nextHistoryId := db.nextHistoryId + 1 } := by
  intro db data uid action now hne
  obtain ⟨c, hc, hmem, hmax⟩ := get_last_updated_task_max db hne
  refine ⟨c, hc, hmem, hmax, ?_⟩
  unfold save_history
  rw [hc]

/-- Witness for claim C5 at a concrete two-task database. -/
theorem claim_C5_witness :
    ∃ c, get_last_updated_task twoTaskDB = some c ∧ c ∈ twoTaskDB.tasks ∧
      (∀ t ∈ twoTaskDB.tasks, t.last_updated_at ≤ c.last_updated_at) ∧
      save_history twoTaskDB [] 1 TaskChangeType.update 5 = Except.ok
        { twoTaskDB with
          history := twoTaskDB.history ++
            [{ id := twoTaskDB.nextHistoryId, task_id := c.id,
               change_type := TaskChangeType.update,
               change_data := if TaskChangeType.update = TaskChangeType.create
                 then setField [] "status" "to_do" else [],
               timestamp := 5, user_id := 1 }]
          nextHistoryId := twoTaskDB.nextHistoryId + 1 } :=
  claim_C5_history_attribution twoTaskDB [] 1 TaskChangeType.update 5 (by decide)

/-- Claim C6 (code bug).  The claim says re-submitting a created task's own
field values succeeds as a no-op transition with a history row of type
update.  The update handler instead raises TypeError on every task whose
current status is not wontfix (for wontfix it is IndexError): router line
126 calls the one-parameter TaskDao.is_valid_status with three arguments,
so no update and no history write ever happens. -/
theorem claim_C6_noop_update_type_error : ∀ (db : DB) (users : List UserRec)
    (req : STaskUpdate) (t_id uid now : Nat) (c : Task),
    get_by_id db t_id = some c → c.status ≠ TaskStatus.wontfix →
    update_task_route db users req t_id uid now = Except.error Err.typeError := by
  intro db users req t_id uid now c hc hw
  unfold update_task_route
  rw [hc]
  obtain ⟨n, hn⟩ := next_status_of_some c.status hw
  show (match get_next_status c with
    | none => Except.error Err.indexError
    | some _ => _) = _
  rw [show get_next_status c = some n from hn]
  rfl

/-- Witness for claim C6: the round-trip input itself — an update of the
freshly created seedTask that echoes its own field values. -/
theorem claim_C6_witness :
    update_task_route seedDB [] echoUpdateReq 1 1 5 = Except.error Err.typeError :=
  claim_C6_noop_update_type_error seedDB [] echoUpdateReq 1 1 5 seedTask rfl (by decide)

/-- Claim C7, counterexample.  With parent_id 99 resolving to no task, the
child-create handler fails with HTTP 400 Bad Request, not with the
not-found error the claim requires. -/
theorem claim_C7_counterexample :
    create_child_task_route seedDB [] childReqBadParent 1 5 = Except.error Err.badRequest ∧
    Except.error Err.badRequest ≠ (Except.error Err.notFound : Except Err DB) := by
  constructor
  · rfl
  · intro h
    injection h with h2
    cases h2

/-- Claim C7 as amended: an unresolvable parent_id makes create-child fail
with a bad-request error (HTTP 400), creating nothing; a resolvable
parent_id (with a valid assignee) creates exactly one new task linked to
that parent. -/
theorem claim_C7_child_parent_amended : ∀ (db : DB) (users : List UserRec)
    (req : STaskCreateChild) (uid now : Nat),
    (is_valid_parent db req.parent_id = false →
      create_child_task_route db users req uid now = Except.error Err.badRequest) ∧
    (is_valid_assignee TaskStatus.to_do
        ((user_get_by_id users req.assignee_id).map (fun u => u.role)) = true →
      is_valid_parent db req.parent_id = true →
      ∃ db1, create_child_task_route db users req uid now = Except.ok db1 ∧
        ∃ t, db1.tasks = db.tasks ++ [t] ∧ t.parent_id = some req.parent_id ∧
          t.status = TaskStatus.to_do) := by
  intro db users req uid now
  constructor
  · intro hp
    unfold create_child_task_route
    simp [hp]
  · intro ha hp
    have hne : (create_child_task db req uid now).tasks ≠ [] := by
      simp [create_child_task]
    obtain ⟨c, hc, -, -⟩ := get_last_updated_task_max (create_child_task db req uid now) hne
    unfold create_child_task_route
    simp only [ha, hp, Bool.not_true, Bool.or_self, Bool.false_or, if_false]
    unfold save_history
    rw [hc]
    exact ⟨_, rfl, _, rfl, rfl, rfl⟩

/-- Witness for claim C7: the failing and the succeeding branch at concrete
requests against the one-task seedDB. -/
theorem claim_C7_witness :
    create_child_task_route seedDB [] childReqBadParent 1 5 = Except.error Err.badRequest ∧
    ∃ db1, create_child_task_route seedDB [] childReqOkParent 1 5 = Except.ok db1 ∧
      ∃ t, db1.tasks = seedDB.tasks ++ [t] ∧
        t.parent_id = some childReqOkParent.parent_id ∧
        t.status = TaskStatus.to_do :=
  ⟨(claim_C7_child_parent_amended seedDB [] childReqBadParent 1 5).1 (by decide),
   (claim_C7_child_parent_amended seedDB [] childReqOkParent 1 5).2 (by decide) (by decide)⟩

/-- Claim C8 (code bug).  The recognized sort keys are exactly the twelve of
the claim; but for a string outside the set the listing does not fail with
a bad-request error as the claim (and convert_filter_type's own docstring)
requires: the conversion returns None and the route answers 200, listing
all tasks under the substituted ascending-id default. -/
theorem claim_C8_sort_keys :
    (∀ s : String, ((convert_filter_type (some s)).isSome = true) ↔
      s ∈ ["number_asc", "number_desc", "status_asc", "status_desc",
           "type_asc", "type_desc", "created_at_asc", "created_at_desc",
           "last_updated_at_asc", "last_updated_at_desc",
           "assignee_asc", "assignee_desc"]) ∧
    convert_filter_type (some "priority_asc") = none ∧
    get_tasks_route seedDB (some "priority_asc") = Except.ok seedDB.tasks := by
  refine ⟨?_, rfl, rfl⟩
  intro s
  show ((filter_mapping.lookup s).isSome = true) ↔ _
  rw [lookup_isSome_iff]
  exact Iff.rfl

/-- Claim C9 (confirmed).  No operation in scope updates or deletes an
existing task_history row: deleting a task leaves the history table — and
hence every history query by task id — untouched; the task-table writes
(create, create-child, update, update-status) leave history untouched; and
save_history only ever appends one new row to the existing ones. -/
theorem claim_C9_history_append_only : ∀ (db : DB) (tid did uid now : Nat)
    (creq : STaskCreate) (ccreq : STaskCreateChild) (ureq : STaskUpdate)
    (st : TaskStatus) (aid : Int) (data : List (String × String))
    (act : TaskChangeType),
    (delete_task db did).history = db.history ∧
    get_task_history (delete_task db did) tid = get_task_history db tid ∧
    (create_task db creq uid now).history = db.history ∧
    (create_child_task db ccreq uid now).history = db.history ∧
    (update_task db ureq did now).history = db.history ∧
    (update_status db did st aid now).history = db.history ∧
    (∀ db1, save_history db data uid act now = Except.ok db1 →
      ∃ r, db1.history = db.history ++ [r]) := by
  intro db tid did uid now creq ccreq ureq st aid data act
  refine ⟨rfl, rfl, rfl, rfl, rfl, rfl, ?_⟩
  intro db1 h
  unfold save_history at h
  cases hg : get_last_updated_task db with
  | none => rw [hg] at h; cases h
  | some c =>
    rw [hg] at h
    injection h with h3
    subst h3
    exact ⟨_, rfl⟩

/-- Witness for claim C9 at the concrete seedDB, save_history branch
included. -/
theorem claim_C9_witness : ∃ r, seedDBAfterHistory.history = seedDB.history ++ [r] :=
  (claim_C9_history_append_only seedDB 1 1 1 5 createReqZero childReqZero updateReqZero
    TaskStatus.to_do 0 [] TaskChangeType.update).2.2.2.2.2.2 seedDBAfterHistory
    (by
      unfold save_history
      rw [show get_last_updated_task seedDB = some seedTask from by
        simp [get_last_updated_task, seedDB, List.mergeSort_singleton]]
      rfl)

/-- Claim C10 (confirmed).  In create, create-child, update and
advance-status, an assignee_id of 0 is persisted as a null assignee
reference: the inserted row (respectively, the rewritten row with the
targeted id) carries assignee_id none. -/
theorem claim_C10_assignee_zero_is_null : ∀ (db : DB) (creq : STaskCreate)
    (ccreq : STaskCreateChild) (ureq : STaskUpdate) (id uid now : Nat)
    (st : TaskStatus),
    (creq.assignee_id = some 0 →
      ∃ t, (create_task db creq uid now).tasks = db.tasks ++ [t] ∧
        t.assignee_id = none) ∧
    (ccreq.assignee_id = some 0 →
      ∃ t, (create_child_task db ccreq uid now).tasks = db.tasks ++ [t] ∧
        t.assignee_id = none) ∧
    (ureq.assignee_id = 0 →
      ∀ t ∈ (update_task db ureq id now).tasks, t.id = id → t.assignee_id = none) ∧
    (∀ t ∈ (update_status db id st 0 now).tasks, t.id = id → t.assignee_id = none) := by
  intro db creq ccreq ureq id uid now st
  refine ⟨?_, ?_, ?_, ?_⟩
  · intro h
    refine ⟨_, rfl, ?_⟩
    simp [h]
  · intro h
    refine ⟨_, rfl, ?_⟩
    simp [h]
  · intro h t ht hid
    simp only [update_task, List.mem_map] at ht
    obtain ⟨t0, ht0, rfl⟩ := ht
    by_cases h0 : t0.id = id
    · simp [h0, h]
    · simp [h0] at hid
  · intro t ht hid
    simp only [update_status, List.mem_map] at ht
    obtain ⟨t0, ht0, rfl⟩ := ht
    by_cases h0 : t0.id = id
    · simp [h0]
    · simp [h0] at hid

/-- Witness for claim C10 at concrete zero-assignee requests. -/
theorem claim_C10_witness :
    (∃ t, (create_task seedDB createReqZero 1 5).tasks = seedDB.tasks ++ [t] ∧
      t.assignee_id = none) ∧
    (∃ t, (create_child_task seedDB childReqZero 1 5).tasks = seedDB.tasks ++ [t] ∧
      t.assignee_id = none) ∧
    (∀ t ∈ (update_task seedDB updateReqZero 1 5).tasks, t.id = 1 →
      t.assignee_id = none) ∧
    (∀ t ∈ (update_status seedDB 1 TaskStatus.in_progress 0 5).tasks, t.id = 1 →
      t.assignee_id = none) :=
  ⟨(claim_C10_assignee_zero_is_null seedDB createReqZero childReqZero updateReqZero 1 1 5
      TaskStatus.in_progress).1 rfl,
   (claim_C10_assignee_zero_is_null seedDB createReqZero childReqZero updateReqZero 1 1 5
      TaskStatus.in_progress).2.1 rfl,
   (claim_C10_assignee_zero_is_null seedDB createReqZero childReqZero updateReqZero 1 1 5
      TaskStatus.in_progress).2.2.1 rfl,
   (claim_C10_assignee_zero_is_null seedDB createReqZero childReqZero updateReqZero 1 1 5
      TaskStatus.in_progress).2.2.2⟩

end TaskTracker
